import Mathlib

/-!
Verification of the end-to-end secure messaging core of the liliumshare
repository (src/frontend/messaging.py, with the parallel WS-relay variant in
src/frontend/chat_only.py), against its natural-language specification.

The repository's protocol logic is embedded shallowly:

* Byte strings are `List Nat` (each entry a byte value; hypotheses bound them
  by 256 where it matters).
* The cryptographic primitives the code imports from external libraries
  (hashlib/hmac's HMAC-SHA256, PyNaCl's X25519 `crypto_scalarmult`,
  `PublicKey`, and the XChaCha20-Poly1305 AEAD) are not part of this
  repository; they are abstracted as the fields of a `Crypto` parameter, and
  theorems quantify over them (adding exactly the assumptions the claims name,
  e.g. commutativity of the ECDH shared secret for X25519 keypairs).
* Python exceptions are modelled with `Except`/`Option`: a `.error`/`none`
  outcome marks an exception propagating out of (resp. being raised inside)
  the modelled function, matching the repository's `try:`/`except:` placement
  line by line.
* The network backend (the pairwise-secret store reached over HTTP) is
  modelled by explicit response values handed to the embedded resolver logic.
-/

namespace LiliumShare

/-! ## Base64 (frontend/messaging.py, `b64e` / `b64d`)

The repository wraps Python's `base64.b64encode` / `base64.b64decode`
(standard alphabet). Those library routines are reimplemented here: `b64e`
produces the standard padded encoding; `b64d` returns `none` exactly where
Python's `b64d` helper raises (non-ASCII input via `.encode("ascii")`, or a
character stream whose valid-alphabet portion does not form complete 4-char
quanta — Python's decoder discards non-alphabet characters and raises
`binascii.Error` on incorrect padding; a padded quantum terminates decoding). -/

def b64Table : List Char :=
  "ABCDEFGHIJKLMNOPQRSTUVWXYZabcdefghijklmnopqrstuvwxyz0123456789+/".data

/-- Character of a 6-bit group (the standard base64 alphabet). -/
def b64Char (n : Nat) : Char := b64Table.getD n '='

/-- Index of a character in the base64 alphabet, `none` for non-alphabet
characters (including `=`). -/
def b64Val (ch : Char) : Option Nat := b64Table.findIdx? (fun c => c == ch)

/-- Encode bytes three at a time, with standard `=` padding. -/
def b64EncodeChunks : List Nat → List Char
  | [] => []
  | [a] => [b64Char (a / 4), b64Char (a % 4 * 16), '=', '=']
  | [a, b] => [b64Char (a / 4), b64Char (a % 4 * 16 + b / 16), b64Char (b % 16 * 4), '=']
  | a :: b :: d :: rest =>
    b64Char (a / 4) :: b64Char (a % 4 * 16 + b / 16) :: b64Char (b % 16 * 4 + d / 64)
      :: b64Char (d % 64) :: b64EncodeChunks rest

/-- messaging.py line 171: `b64e(b) = base64.b64encode(b).decode("ascii")`. -/
def b64e (bs : List Nat) : String := String.mk (b64EncodeChunks bs)

/-- Decode 4-character quanta; a quantum carrying padding yields the final
bytes and stops (remaining characters are ignored, as in `binascii`);
a trailing group of 1-3 characters is a padding error (`none`). -/
def b64DecodeChunks : List Char → Option (List Nat)
  | [] => some []
  | c1 :: c2 :: c3 :: c4 :: rest =>
    match b64Val c1, b64Val c2 with
    | some v1, some v2 =>
      if c3 = '=' then
        if c4 = '=' then some [v1 * 4 + v2 / 16] else none
      else
        match b64Val c3 with
        | some v3 =>
          if c4 = '=' then some [v1 * 4 + v2 / 16, v2 % 16 * 16 + v3 / 4]
          else
            match b64Val c4 with
            | some v4 =>
              (b64DecodeChunks rest).map
                (fun r => (v1 * 4 + v2 / 16) :: (v2 % 16 * 16 + v3 / 4) :: (v3 % 4 * 64 + v4) :: r)
            | none => none
        | none => none
    | _, _ => none
  | _ => none

/-- messaging.py line 175: `b64d(s) = base64.b64decode(s.encode("ascii"))`;
`none` models the raised exception. -/
def b64d (s : String) : Option (List Nat) :=
  if s.data.all (fun ch => ch.toNat < 128) then
    b64DecodeChunks (s.data.filter (fun ch => (b64Val ch).isSome || ch == '='))
  else none

/-! ## UTF-8 encoding of identity/role strings (`.encode("utf-8")`) -/

/-- UTF-8 encoding of one code point. -/
def utf8Char (ch : Char) : List Nat :=
  let n := ch.toNat
  if n < 128 then [n]
  else if n < 2048 then [192 + n / 64, 128 + n % 64]
  else if n < 65536 then [224 + n / 4096, 128 + n / 64 % 64, 128 + n % 64]
  else [240 + n / 262144, 128 + n / 4096 % 64, 128 + n / 64 % 64, 128 + n % 64]

/-- `s.encode("utf-8")` as a byte list. -/
def utf8Bytes (s : String) : List Nat :=
  s.data.foldr (fun ch acc => utf8Char ch ++ acc) []

/-! ## HKDF (frontend/messaging.py, `hkdf_sha256`, lines 156-168)

The source's `while len(okm) < out_len` loop appends one digest per
iteration; it is embedded with `outLen` as fuel, which makes the recursion
structural and is enough iterations whenever the HMAC digest is nonempty
(SHA-256 digests are 32 bytes, so the fuel never runs out on the real
primitive).  `bytes([counter])` is `[counter]` for the reachable counters
(they stay far below 256 for 32-byte outputs).  The `salt is None` default
branch of the source is dead at every call site in the repository and is not
modelled. -/

def hkdfLoop (hm : List Nat → List Nat → List Nat) (prk info : List Nat) (outLen : Nat) :
    Nat → List Nat → List Nat → Nat → List Nat
  | 0, _, okm, _ => okm
  | fuel + 1, t, okm, counter =>
    if okm.length < outLen then
      let t2 := hm prk (t ++ info ++ [counter])
      hkdfLoop hm prk info outLen fuel t2 (okm ++ t2) (counter + 1)
    else okm

/-- `hkdf_sha256(ikm, salt, info, out_len)`, parametric in the HMAC
primitive `hm` (key, message ↦ digest). -/
def hkdf_sha256 (hm : List Nat → List Nat → List Nat)
    (ikm salt info : List Nat) (outLen : Nat) : List Nat :=
  (hkdfLoop hm (hm salt ikm) info outLen outLen [] [] 1).take outLen

/-! ## Canonical salt (messaging.py lines 251-254, chat_only.py lines 192-195) -/

/-- Python's `<=` on strings: lexicographic comparison by code point
(which coincides with byte-lexicographic order of the UTF-8 encodings,
UTF-8 being order-preserving). -/
def charListLe : List Char → List Char → Bool
  | [], _ => true
  | _ :: _, [] => false
  | a :: as, b :: bs =>
    if a.toNat < b.toNat then true
    else if b.toNat < a.toNat then false
    else charListLe as bs

/-- `a <= b` of the source, on `String`. -/
def strLe (a b : String) : Bool := charListLe a.data b.data

/-- The canonical identity pair: `f"{a}|{b}" if a <= b else f"{b}|{a}"`. -/
def canonPair (a b : String) : String :=
  if strLe a b then a ++ "|" ++ b else b ++ "|" ++ a

/-- `salt = hmac.new(b64d(conn_key_b64), canon.encode("utf-8"), sha256).digest()`,
parametric in the HMAC primitive. -/
def deriveSalt (hm : List Nat → List Nat → List Nat)
    (ckB : List Nat) (me other : String) : List Nat :=
  hm ckB (utf8Bytes (canonPair me other))

/-- The fixed protocol label `info = b"LiliumShare/secure-msg/v1"`. -/
def infoLabel : List Nat := utf8Bytes "LiliumShare/secure-msg/v1"

/-! ## External cryptographic primitives

These functions live in hashlib/hmac and PyNaCl, outside this repository;
the embedding takes them as parameters and the theorems quantify over them,
stating as hypotheses exactly the library properties the claims invoke
(e.g. commutativity of the X25519 shared secret). -/

structure Crypto where
  /-- `hmac.new(key, msg, sha256).digest()` -/
  hmac : List Nat → List Nat → List Nat
  /-- `crypto_scalarmult(bytes(sk), bytes(pk))` -/
  scalarmult : List Nat → List Nat → List Nat
  /-- `bytes(PrivateKey(sk).public_key)` -/
  pubOf : List Nat → List Nat
  /-- `crypto_aead_xchacha20poly1305_ietf_decrypt(ct, ad, nonce, key)`;
  `none` models the raised forgery/length error. -/
  aeadDec : List Nat → List Nat → List Nat → List Nat → Option (List Nat)

/-! ## JSON values (the possible results of `json.loads`) -/

/-- A parsed JSON value.  `jobj` is the resulting `dict` (duplicate keys
already resolved by the parser, so the association list is the dict's
content); JSON numbers are modelled as integers, which is enough for every
claim.  A `json.loads` failure is modelled as `none : Option JVal` at the
call site. -/
inductive JVal
  | jnull
  | jbool (b : Bool)
  | jnum (n : Int)
  | jstr (s : String)
  | jarr (elems : List JVal)
  | jobj (fields : List (String × JVal))

abbrev JObj := List (String × JVal)

/-- `msg.get(k)`: `None` when the key is absent. -/
def jget (m : JObj) (k : String) : JVal := (m.lookup k).getD JVal.jnull

/-- Python truthiness (`not x`): `None`, `False`, `0`, `""`, `[]` and an
empty dict are falsy. -/
def jTruthy : JVal → Bool
  | .jnull => false
  | .jbool b => b
  | .jnum n => n != 0
  | .jstr s => s != ""
  | .jarr l => !l.isEmpty
  | .jobj l => !l.isEmpty

/-- The string content of a JSON value, if it is a string. -/
def asStr : JVal → Option String
  | .jstr s => some s
  | _ => none

/-- Python `f"{v}"` rendering, used only to build the associated-data
string from the `from`/`to` fields of a msg frame.  Container rendering is
approximated (no claim inspects the rendered text of a non-string field). -/
def pyStr : JVal → String
  | .jstr s => s
  | .jnull => "None"
  | .jbool true => "True"
  | .jbool false => "False"
  | .jnum n => toString n
  | .jarr _ => "<list>"
  | .jobj _ => "<dict>"

/-- The tag `msg.get("t")` when it is a string; a missing or non-string tag
matches none of the dispatch comparisons. -/
def tagOf (m : JObj) : Option String := asStr (jget m "t")

/-! ## MessagingSession state (frontend/messaging.py, class MessagingSession)

The protocol-relevant attributes.  `ws_url`, `send_raw` and `on_plaintext`
are the external transport/UI collaborators: the resolver reached through
`ws_url` is passed to each handler as a function argument, sent frames and
delivered plaintexts are collected in the returned output list.  `sk` is an
`Option` so that "the ephemeral private key was discarded" is expressible;
the constructor always sets it. -/

structure Session where
  role : String
  mePub : String
  otherPub : String
  /-- `self._sk` (ephemeral X25519 private key bytes) -/
  sk : Option (List Nat)
  /-- `self._pk = self._sk.public_key`, fixed at construction -/
  pk : List Nat
  /-- `self._aead_key` -/
  aeadKey : Option (List Nat)
  /-- `self._sealed` -/
  sealed : Bool
deriving DecidableEq

/-- Everything a handler can emit: a frame handed to `send_raw`, or a
decrypted payload handed to `on_plaintext` (the source decodes it with
`errors="replace"` before delivery; the bytes are carried here). -/
inductive Out
  | helloFrame (role epub auth : String)
  | ackFrame (role epub auth : String)
  | plaintext (pt : List Nat)
deriving DecidableEq

/-- An uncaught Python exception escaping a handler. -/
inductive PyErr
  /-- `.get` on a non-dict, or `.encode` on a non-string -/
  | attributeError
  /-- `str + non-str` concatenation -/
  | typeError
  /-- `binascii.Error` / `UnicodeEncodeError` out of `b64d` -/
  | binasciiError
deriving DecidableEq

/-- The pairwise-secret resolver (`get_connkey(http_base, host, friend)`
with `http_base` fixed): returns the base64 conn key, or `.error` when the
underlying HTTP machinery raises. -/
abbrev Resolver := String → String → Except Unit String

/-- messaging.py lines 235-238, `MessagingSession.close`:
`self._aead_key = None; self._sealed = True`. -/
def close (st : Session) : Session := { st with aeadKey := none, sealed := true }

/-- messaging.py lines 240-243, `MessagingSession._auth_tag`:
`b64e(hmac.new(b64d(conn_key_b64), (role + "|" + epub_b64).encode("utf-8"), sha256).digest())`;
`none` models the exception when the conn key is not valid base64. -/
def auth_tag (c : Crypto) (connKeyB64 roleStr epubB64 : String) : Option String :=
  (b64d connKeyB64).map
    (fun k => b64e (c.hmac k (utf8Bytes (roleStr ++ "|" ++ epubB64))))

/-- messaging.py lines 245-261, `MessagingSession._derive_session_key`
(the value assigned to `self._aead_key`; the handler catches every
exception inside and assigns `None` in that case, hence `Option`):
ECDH shared point, canonical salt, HKDF with the fixed info label.
`PublicKey(b)` raises unless `b` is exactly 32 bytes.
chat_only.py lines 186-205 (`WSChat._derive_key`) is the identical
computation with `me`/`peer` in place of `me_pub`/`other_pub`. -/
def derive_session_key (c : Crypto) (st : Session)
    (peerEpubB64 connKeyB64 : String) : Option (List Nat) :=
  match st.sk with
  | none => none
  | some skB =>
    match b64d peerEpubB64 with
    | none => none
    | some pb =>
      if pb.length = 32 then
        match b64d connKeyB64 with
        | none => none
        | some ckB =>
          some (hkdf_sha256 c.hmac (c.scalarmult skB pb)
            (deriveSalt c.hmac ckB st.mePub st.otherPub) infoLabel 32)
      else none

/-- messaging.py lines 291-337, `MessagingSession._handle_hello`.
Field guard, direction from the SENDER's claimed role, resolver fetch
(errors swallowed), tag recomputation and constant-time compare, key
derivation, and the viewer's hello-ack reply.  The `b64d` calls on the
resolved conn key and on `auth` sit outside any `try:`, so their failures
propagate (`.error`); so does the `role + "|" + epub` concatenation when
`epub` is a truthy non-string, and `auth.encode` when `auth` is a truthy
non-string. -/
def handle_hello (c : Crypto) (res : Resolver) (st : Session) (m : JObj) :
    Except PyErr (Session × List Out) :=
  match jget m "role" with
  | .jstr roleS =>
    if (roleS = "host" ∨ roleS = "viewer")
        ∧ jTruthy (jget m "epub") = true ∧ jTruthy (jget m "auth") = true then
      let host := if roleS = "host" then st.otherPub else st.mePub
      let friend := if roleS = "host" then st.mePub else st.otherPub
      match res host friend with
      | .error _ => .ok (st, [])
      | .ok ck =>
        match b64d ck with
        | none => .error .binasciiError
        | some ckB =>
          match asStr (jget m "epub") with
          | none => .error .typeError
          | some epubS =>
            match asStr (jget m "auth") with
            | none => .error .attributeError
            | some authS =>
              match b64d authS with
              | none => .error .binasciiError
              | some authB =>
                if authB = c.hmac ckB (utf8Bytes (roleS ++ "|" ++ epubS)) then
                  let st2 := { st with aeadKey := derive_session_key c st epubS ck }
                  if st.role = "viewer" ∧ roleS = "host" then
                    .ok (st2, [Out.ackFrame "viewer" (b64e st.pk)
                      (b64e (c.hmac ckB (utf8Bytes ("viewer" ++ "|" ++ b64e st.pk))))])
                  else .ok (st2, [])
                else .ok (st, [])
    else .ok (st, [])
  | _ => .ok (st, [])

/-- messaging.py lines 339-369, `MessagingSession._handle_hello_ack`.
Valid only when the ack claims role `"viewer"` and this machine is the
host; the conn key is fetched in the original `(me, other)` direction.
There is no already-keyed guard in this class (the guard exists only in
chat_only.py's `WSChat.on_ack`). -/
def handle_hello_ack (c : Crypto) (res : Resolver) (st : Session) (m : JObj) :
    Except PyErr (Session × List Out) :=
  match jget m "role" with
  | .jstr "viewer" =>
    if st.role = "host"
        ∧ jTruthy (jget m "epub") = true ∧ jTruthy (jget m "auth") = true then
      match res st.mePub st.otherPub with
      | .error _ => .ok (st, [])
      | .ok ck =>
        match b64d ck with
        | none => .error .binasciiError
        | some ckB =>
          match asStr (jget m "epub") with
          | none => .error .typeError
          | some epubS =>
            match asStr (jget m "auth") with
            | none => .error .attributeError
            | some authS =>
              match b64d authS with
              | none => .error .binasciiError
              | some authB =>
                if authB = c.hmac ckB (utf8Bytes ("viewer" ++ "|" ++ epubS)) then
                  .ok ({ st with aeadKey := derive_session_key c st epubS ck }, [])
                else .ok (st, [])
    else .ok (st, [])
  | _ => .ok (st, [])

/-- The inner `try:` of the msg branch of `on_json` (lines 388-394): field
lookup (`KeyError`), base64 decode, AEAD open — every failure is caught and
the frame dropped (`none`). -/
def msgDecrypt (c : Crypto) (key : List Nat) (m : JObj) : Option (List Nat) :=
  match m.lookup "n" with
  | none => none
  | some nv =>
    match asStr nv with
    | none => none
    | some ns =>
      match b64d ns with
      | none => none
      | some nb =>
        match m.lookup "c" with
        | none => none
        | some cv =>
          match asStr cv with
          | none => none
          | some cs =>
            match b64d cs with
            | none => none
            | some cb =>
              c.aeadDec cb
                (utf8Bytes (pyStr ((m.lookup "from").getD (JVal.jstr ""))
                  ++ "|" ++ pyStr ((m.lookup "to").getD (JVal.jstr ""))))
                nb key

/-- messaging.py lines 385-398: the `t == "msg"` branch — ignored without a
(truthy) key, otherwise decrypt-and-deliver with all failures dropped.  It
never raises and never modifies the session. -/
def handle_msg (c : Crypto) (st : Session) (m : JObj) : Session × List Out :=
  match st.aeadKey with
  | none => (st, [])
  | some key =>
    if key = [] then (st, [])
    else
      match msgDecrypt c key m with
      | some pt => (st, [Out.plaintext pt])
      | none => (st, [])

/-- The tag dispatch of `on_json` once the parsed value is a dict:
`t = msg.get("t")` compared against the three known tags (a missing or
non-string tag matches none of them and the frame is dropped). -/
def on_obj (c : Crypto) (res : Resolver) (st : Session) (m : JObj) :
    Except PyErr (Session × List Out) :=
  if tagOf m = some "hello" then handle_hello c res st m
  else if tagOf m = some "hello-ack" then handle_hello_ack c res st m
  else if tagOf m = some "msg" then .ok (handle_msg c st m)
  else .ok (st, [])

/-- messaging.py lines 371-398, `MessagingSession.on_json`.  The input is
the outcome of `json.loads(raw_json)` (`none` = parse failure, silently
dropped).  `msg.get("t")` raises `AttributeError` when the parsed value is
not a dict. -/
def on_json (c : Crypto) (res : Resolver) (st : Session) (inp : Option JVal) :
    Except PyErr (Session × List Out) :=
  match inp with
  | none => .ok (st, [])
  | some (.jobj m) => on_obj c res st m
  | some _ => .error .attributeError

/-- An uncaught exception escaping `start_handshake_as_host` (the
`get_connkey` call and the `_auth_tag` computation sit outside any
`try:`). -/
inductive StartErr
  | resolveRaised
  | connKeyB64Raised
deriving DecidableEq

/-- Outcome of `start_handshake_as_host`: a normal return with the frames
handed to the transport, or an exception propagating to the caller. -/
inductive StartOutcome
  | sent (outs : List Out)
  | raised (e : StartErr)
deriving DecidableEq

/-- messaging.py lines 266-289, `MessagingSession.start_handshake_as_host`.
Fetches the conn key in direction `(me, other)` — outside any `try:`, so a
resolver failure propagates as an exception — then builds and sends the
hello `{t:"hello", role:"host", epub, auth}`.  (`send_raw` failures are
caught and only logged; the transport is modelled as accepting the frame.)
No session attribute is assigned anywhere in the method. -/
def start_handshake_as_host (c : Crypto) (res : Resolver) (st : Session) :
    Session × StartOutcome :=
  match res st.mePub st.otherPub with
  | .error _ => (st, .raised .resolveRaised)
  | .ok ck =>
    match b64d ck with
    | none => (st, .raised .connKeyB64Raised)
    | some ckB =>
      (st, .sent [Out.helloFrame "host" (b64e st.pk)
        (b64e (c.hmac ckB (utf8Bytes ("host" ++ "|" ++ b64e st.pk))))])

/-! ## Connkey resolution (messaging.py lines 94-153)

`_fetch_connkey` / `_generate_connkey` / `_ensure_connkey` are embedded
over explicit backend responses.  One `FetchR` value describes what one
GET of `/api/friends/connkey` does, per the branches of `_fetch_connkey`;
one `GenR` value describes the POST to `/api/friends/connkey/generate`
per `_generate_connkey`.  `_try_connkey` (the legacy endpoint scan reached
from `_ensure_connkey`'s blanket `except Exception`) is represented by a
single outcome value — the claims constrain when it is reached, not its
internal route list. -/

/-- Outcome of one `_fetch_connkey` call. -/
inductive FetchR
  /-- 200 with a `conn_key` field: the key is returned -/
  | okKey (ck : String)
  /-- 200 without a recognised field: `RuntimeError` (a plain `Exception`) -/
  | okMissingField
  /-- 404: `r.raise_for_status()` raises `requests.HTTPError` -/
  | status404
  /-- other non-2xx status: `requests.HTTPError` -/
  | statusOther
  /-- connection/JSON failure: an exception that is not an `HTTPError` -/
  | exc
deriving DecidableEq

/-- Outcome of one `_generate_connkey` call. -/
inductive GenR
  /-- 2xx (the echoed key, if any, is discarded — the caller re-fetches) -/
  | ok
  /-- 409: friendship not accepted → `RuntimeError` -/
  | conflict409
  /-- other non-2xx status: `requests.HTTPError` -/
  | statusOther
  /-- connection/JSON failure -/
  | exc
deriving DecidableEq

/-- One backend interaction performed by `_ensure_connkey`. -/
inductive CKCall
  | fetch
  | generate
  | legacy
deriving DecidableEq

/-- The error `_ensure_connkey` lets propagate. -/
inductive EnsureErr
  /-- `RuntimeError("friendship not accepted (409) ...")` -/
  | conflict409
  /-- `requests.HTTPError` for a 404 on the post-generate re-fetch -/
  | httpError404
  /-- `requests.HTTPError` for any other status -/
  | httpErrorOther
  /-- any other exception -/
  | otherException
deriving DecidableEq

/-- Result of the `_try_connkey` legacy scan, mapped into the ensure-level
error type (it raises its last exception if every route fails). -/
def legacyResult : Except Unit String → Except EnsureErr String
  | .ok s => .ok s
  | .error _ => .error .otherException

/-- messaging.py lines 128-143, `_ensure_connkey`, with the call trace it
produces.  `f1` is the first fetch's outcome, `g` the generate outcome
(consulted only on a 404), `f2` the re-fetch outcome (consulted only after
a successful generate), `legacy` the legacy-scan outcome (reached only from
the blanket `except Exception` around the FIRST fetch; exceptions raised
inside the `except requests.HTTPError` handler propagate). -/
def ensure_connkey (f1 f2 : FetchR) (g : GenR) (legacy : Except Unit String) :
    Except EnsureErr String × List CKCall :=
  match f1 with
  | .okKey ck => (.ok ck, [.fetch])
  | .statusOther => (.error .httpErrorOther, [.fetch])
  | .okMissingField => (legacyResult legacy, [.fetch, .legacy])
  | .exc => (legacyResult legacy, [.fetch, .legacy])
  | .status404 =>
    match g with
    | .conflict409 => (.error .conflict409, [.fetch, .generate])
    | .statusOther => (.error .httpErrorOther, [.fetch, .generate])
    | .exc => (.error .otherException, [.fetch, .generate])
    | .ok =>
      match f2 with
      | .okKey ck => (.ok ck, [.fetch, .generate, .fetch])
      | .okMissingField => (.error .otherException, [.fetch, .generate, .fetch])
      | .status404 => (.error .httpError404, [.fetch, .generate, .fetch])
      | .statusOther => (.error .httpErrorOther, [.fetch, .generate, .fetch])
      | .exc => (.error .otherException, [.fetch, .generate, .fetch])

/-! ## Concrete instantiations used by witnesses and counterexamples

The universally quantified theorems are evaluated at a small executable
`Crypto` instance: a toy keyed hash, and a toy Diffie-Hellman
(exponentiation in the multiplicative group mod the prime 251, padded to
32 bytes) which satisfies the X25519 commutativity hypothesis at the
concrete key pairs used. -/

/-- Toy keyed hash standing in for HMAC-SHA256 in concrete evaluations. -/
def wHmac (k m : List Nat) : List Nat :=
  [(k.foldl (fun a b => a + b) 0 * 31 + m.foldl (fun a b => a + b) 0 * 7 + 3) % 251]

/-- Toy public key: 31 zero bytes then `2 ^ sk mod 251`. -/
def wPub (k : List Nat) : List Nat :=
  List.replicate 31 0 ++ [2 ^ (k.headD 0 % 8) % 251]

/-- Toy scalar multiplication: `pk ^ sk mod 251` on the last byte. -/
def wSm (k p : List Nat) : List Nat := [p.getLastD 0 ^ (k.headD 0 % 8) % 251]

def wCrypto : Crypto :=
  { hmac := wHmac, scalarmult := wSm, pubOf := wPub,
    aeadDec := fun ct _ _ _ => some ct }

/-- A resolver that always answers with the base64 of the 3-byte conn key
`[0,0,0]`. -/
def wResolver : Resolver := fun _ _ => .ok "AAAA"

/-- A resolver whose backend is unavailable (every call raises). -/
def wResolverDown : Resolver := fun _ _ => .error ()

def sViewer : Session :=
  { role := "viewer", mePub := "B", otherPub := "A", sk := some [3],
    pk := wPub [3], aeadKey := none, sealed := false }

def sViewerKeyed : Session := { sViewer with aeadKey := some [7] }

def sHost : Session :=
  { role := "host", mePub := "A", otherPub := "B", sk := some [3],
    pk := wPub [3], aeadKey := none, sealed := false }

def sHostKeyed : Session := { sHost with aeadKey := some [7] }

/-- The peer's ephemeral public key (toy keypair with private part `[4]`),
base64-encoded as on the wire. -/
def epubB : String := b64e (wPub [4])

/-- A hello frame from a host peer whose tag is valid for the conn key
`[0,0,0]` served by `wResolver`. -/
def helloGood : JObj :=
  [("t", JVal.jstr "hello"), ("role", JVal.jstr "host"),
   ("epub", JVal.jstr epubB),
   ("auth", JVal.jstr (b64e (wHmac [0, 0, 0] (utf8Bytes ("host" ++ "|" ++ epubB)))))]

/-- A hello-ack frame from a viewer peer with a valid tag. -/
def ackGood : JObj :=
  [("t", JVal.jstr "hello-ack"), ("role", JVal.jstr "viewer"),
   ("epub", JVal.jstr epubB),
   ("auth", JVal.jstr (b64e (wHmac [0, 0, 0] (utf8Bytes ("viewer" ++ "|" ++ epubB)))))]

/-- A hello frame whose auth decodes to `[0,0,0]`, which is not the
expected tag. -/
def helloBadAuth : JObj :=
  [("t", JVal.jstr "hello"), ("role", JVal.jstr "host"),
   ("epub", JVal.jstr epubB), ("auth", JVal.jstr "AAAA")]

/-- The session-key slot of a handler outcome: `none` when the handler
raised, otherwise the post-state's key. -/
def resKey : Except PyErr (Session × List Out) → Option (Option (List Nat))
  | .ok (s, _) => some s.aeadKey
  | .error _ => none

/-- Did the ack's tag verify against the resolved conn key?  (The
recomputation performed at messaging.py lines 363-364, as a predicate.) -/
def ackTagVerifies (c : Crypto) (res : Resolver) (st : Session) (m : JObj) : Bool :=
  match res st.mePub st.otherPub, asStr (jget m "epub"), asStr (jget m "auth") with
  | .ok ck, some epubS, some authS =>
    match b64d ck, b64d authS with
    | some ckB, some authB =>
      authB = c.hmac ckB (utf8Bytes ("viewer" ++ "|" ++ epubS))
    | _, _ => false
  | _, _, _ => false

deriving instance DecidableEq for Except

/-- A keyed host session that also holds its ephemeral private key,
used to examine `close`. -/
def s9 : Session :=
  { role := "host", mePub := "A", otherPub := "B", sk := some [5],
    pk := wPub [5], aeadKey := some [9], sealed := false }

/-! ## Helper lemmas: the base64 round trip -/

theorem b64Val_b64Char : ∀ n, n < 64 → b64Val (b64Char n) = some n := by decide

theorem b64Char_toNat_lt : ∀ n, n < 64 → (b64Char n).toNat < 128 := by decide

theorem b64Char_ne_pad : ∀ n, n < 64 → ¬ b64Char n = '=' := by decide

/-- Every character emitted by the encoder is ASCII and survives the
decoder's alphabet filter. -/
theorem encode_chars_good (bs : List Nat) (h : ∀ x ∈ bs, x < 256) :
    ∀ ch ∈ b64EncodeChunks bs,
      ch.toNat < 128 ∧ ((b64Val ch).isSome || ch == '=') = true := by
  induction bs using b64EncodeChunks.induct with
  | case1 => intro ch hch; simp [b64EncodeChunks] at hch
  | case2 a =>
    have ha : a < 256 := h a (by simp)
    intro ch hch
    simp only [b64EncodeChunks, List.mem_cons, List.not_mem_nil, or_false] at hch
    rcases hch with rfl | rfl | rfl | rfl
    · exact ⟨b64Char_toNat_lt _ (by omega), by simp [b64Val_b64Char _ (by omega : a / 4 < 64)]⟩
    · exact ⟨b64Char_toNat_lt _ (by omega), by simp [b64Val_b64Char _ (by omega : a % 4 * 16 < 64)]⟩
    · exact ⟨by decide, by decide⟩
    · exact ⟨by decide, by decide⟩
  | case3 a b =>
    have ha : a < 256 := h a (by simp)
    have hb : b < 256 := h b (by simp)
    intro ch hch
    simp only [b64EncodeChunks, List.mem_cons, List.not_mem_nil, or_false] at hch
    rcases hch with rfl | rfl | rfl | rfl
    · exact ⟨b64Char_toNat_lt _ (by omega), by simp [b64Val_b64Char _ (by omega : a / 4 < 64)]⟩
    · exact ⟨b64Char_toNat_lt _ (by omega),
        by simp [b64Val_b64Char _ (by omega : a % 4 * 16 + b / 16 < 64)]⟩
    · exact ⟨b64Char_toNat_lt _ (by omega), by simp [b64Val_b64Char _ (by omega : b % 16 * 4 < 64)]⟩
    · exact ⟨by decide, by decide⟩
  | case4 a b d rest ih =>
    have ha : a < 256 := h a (by simp)
    have hb : b < 256 := h b (by simp)
    have hd : d < 256 := h d (by simp)
    intro ch hch
    simp only [b64EncodeChunks, List.mem_cons] at hch
    rcases hch with rfl | rfl | rfl | rfl | hch
    · exact ⟨b64Char_toNat_lt _ (by omega), by simp [b64Val_b64Char _ (by omega : a / 4 < 64)]⟩
    · exact ⟨b64Char_toNat_lt _ (by omega),
        by simp [b64Val_b64Char _ (by omega : a % 4 * 16 + b / 16 < 64)]⟩
    · exact ⟨b64Char_toNat_lt _ (by omega),
        by simp [b64Val_b64Char _ (by omega : b % 16 * 4 + d / 64 < 64)]⟩
    · exact ⟨b64Char_toNat_lt _ (by omega), by simp [b64Val_b64Char _ (by omega : d % 64 < 64)]⟩
    · exact ih (fun x hx => h x (by simp [hx])) ch hch

/-- Decoding inverts encoding, chunkwise. -/
theorem decode_encode_chunks (bs : List Nat) (h : ∀ x ∈ bs, x < 256) :
    b64DecodeChunks (b64EncodeChunks bs) = some bs := by
  induction bs using b64EncodeChunks.induct with
  | case1 => rfl
  | case2 a =>
    have ha : a < 256 := h a (by simp)
    simp only [b64EncodeChunks, b64DecodeChunks,
      b64Val_b64Char _ (by omega : a / 4 < 64),
      b64Val_b64Char _ (by omega : a % 4 * 16 < 64), reduceIte,
      Option.some.injEq, List.cons.injEq, and_true]
    omega
  | case3 a b =>
    have ha : a < 256 := h a (by simp)
    have hb : b < 256 := h b (by simp)
    simp only [b64EncodeChunks, b64DecodeChunks,
      b64Val_b64Char _ (by omega : a / 4 < 64),
      b64Val_b64Char _ (by omega : a % 4 * 16 + b / 16 < 64),
      b64Val_b64Char _ (by omega : b % 16 * 4 < 64),
      b64Char_ne_pad _ (by omega : b % 16 * 4 < 64), reduceIte,
      Option.some.injEq, List.cons.injEq, and_true]
    omega
  | case4 a b d rest ih =>
    have ha : a < 256 := h a (by simp)
    have hb : b < 256 := h b (by simp)
    have hd : d < 256 := h d (by simp)
    have hrest := ih (fun x hx => h x (by simp [hx]))
    simp only [b64EncodeChunks, b64DecodeChunks,
      b64Val_b64Char _ (by omega : a / 4 < 64),
      b64Val_b64Char _ (by omega : a % 4 * 16 + b / 16 < 64),
      b64Val_b64Char _ (by omega : b % 16 * 4 + d / 64 < 64),
      b64Val_b64Char _ (by omega : d % 64 < 64),
      b64Char_ne_pad _ (by omega : b % 16 * 4 + d / 64 < 64),
      b64Char_ne_pad _ (by omega : d % 64 < 64), reduceIte,
      hrest, Option.map_some', Option.some.injEq, List.cons.injEq, and_true]
    omega

/-- The base64 round trip of the repository's helpers. -/
theorem b64_roundtrip (bs : List Nat) (h : ∀ x ∈ bs, x < 256) :
    b64d (b64e bs) = some bs := by
  have hgood := encode_chars_good bs h
  have hascii : ((String.mk (b64EncodeChunks bs)).data.all fun ch => ch.toNat < 128) = true := by
    rw [List.all_eq_true]
    intro ch hch
    simpa using (hgood ch hch).1
  have hfilter :
      (String.mk (b64EncodeChunks bs)).data.filter
        (fun ch => (b64Val ch).isSome || ch == '=') = b64EncodeChunks bs := by
    refine List.filter_eq_self.mpr ?_
    intro ch hch
    exact (hgood ch hch).2
  unfold b64d b64e
  rw [if_pos hascii, hfilter, decode_encode_chunks bs h]

/-! ## Helper lemmas: the canonical pair and Python string order

`strLe` (the source's `a <= b`) is bridged to the `LinearOrder` on
`String`, so the canonical pair can be characterised through `min`/`max`. -/

theorem charListLe_iff (x y : List Char) : charListLe x y = true ↔ ¬ y < x := by
  induction x generalizing y with
  | nil =>
    simp only [charListLe, true_iff]
    exact List.Lex.not_nil_right _ _
  | cons a as ih =>
    cases y with
    | nil =>
      simp only [charListLe, Bool.false_eq_true, false_iff, not_not]
      exact List.nil_lt_cons a as
    | cons b bs =>
      simp only [charListLe]
      by_cases hab : a.toNat < b.toNat
      · rw [if_pos hab]
        simp only [true_iff]
        intro hlt
        cases hlt with
        | rel hr =>
          have hr2 : b.toNat < a.toNat := hr
          omega
        | cons ht => exact absurd hab (by omega)
      · rw [if_neg hab]
        by_cases hba : b.toNat < a.toNat
        · rw [if_pos hba]
          simp only [Bool.false_eq_true, false_iff, not_not]
          exact List.Lex.rel (show b < a from hba)
        · rw [if_neg hba]
          have hab2 : ¬ a.val.toNat < b.val.toNat := hab
          have hba2 : ¬ b.val.toNat < a.val.toNat := hba
          have hEq : b = a := Char.ext (UInt32.ext (by omega))
          subst hEq
          rw [ih bs]
          constructor
          · intro hnot hlt
            cases hlt with
            | rel hr =>
              have hr2 : b.toNat < b.toNat := hr
              omega
            | cons ht => exact hnot ht
          · intro hnot hlt
            exact hnot (List.Lex.cons hlt)

theorem strLe_iff (a b : String) : strLe a b = true ↔ a ≤ b := by
  rw [String.le_iff_toList_le]
  show charListLe a.data b.data = true ↔ a.data ≤ b.data
  rw [charListLe_iff]
  exact not_lt

/-- The canonical pair is the smaller identity, a pipe, the larger one. -/
theorem canonPair_min_max (a b : String) :
    canonPair a b = min a b ++ "|" ++ max a b := by
  unfold canonPair
  by_cases h : strLe a b = true
  · have hle : a ≤ b := (strLe_iff a b).mp h
    rw [if_pos h, min_eq_left hle, max_eq_right hle]
  · have hba : b ≤ a := le_of_not_le (fun hle => h ((strLe_iff a b).mpr hle))
    rw [if_neg h, min_eq_right hba, max_eq_left hba]

theorem canonPair_comm (a b : String) : canonPair a b = canonPair b a := by
  rw [canonPair_min_max, canonPair_min_max, min_comm, max_comm]

theorem deriveSalt_comm (hm : List Nat → List Nat → List Nat)
    (ckB : List Nat) (a b : String) :
    deriveSalt hm ckB a b = deriveSalt hm ckB b a := by
  unfold deriveSalt
  rw [canonPair_comm]

/-- `handle_msg` never modifies the session: the msg branch only reads the
key and emits (or drops) a plaintext. -/
theorem handle_msg_fst (c : Crypto) (st : Session) (m : JObj) :
    (handle_msg c st m).1 = st := by
  unfold handle_msg
  split
  · rfl
  · split
    · rfl
    · split <;> rfl

/-! ## Claim C10 -/

/-- Claim C10: for every byte string, decoding the base64 encoding returns
the original bytes — the `b64e`/`b64d` helpers used for every wire field
(epub, auth, nonce, ciphertext, connkey) form a lossless round trip. -/
theorem c10_b64_roundtrip (bs : List Nat) (h : ∀ x ∈ bs, x < 256) :
    b64d (b64e bs) = some bs :=
  b64_roundtrip bs h

theorem c10_witness : b64d (b64e [0, 1, 255]) = some [0, 1, 255] :=
  c10_b64_roundtrip [0, 1, 255] (by decide)

/-! ## Claim C4 -/

/-- Claim C4: for every pairwise secret and identities, the salt derived
with self=A, peer=B equals the salt derived with self=B, peer=A; the
canonical string is min(A,B) followed by a pipe and max(A,B) in
(byte-)lexicographic order, so the salt HMAC(secret, canonical) is
invariant under swapping self and peer — in particular for "A" and "B". -/
theorem c4_salt_direction_invariance (hm : List Nat → List Nat → List Nat)
    (ckB : List Nat) (a b : String) :
    deriveSalt hm ckB a b = deriveSalt hm ckB b a
    ∧ canonPair a b = min a b ++ "|" ++ max a b
    ∧ deriveSalt hm ckB "A" "B" = deriveSalt hm ckB "B" "A" :=
  ⟨deriveSalt_comm hm ckB a b, canonPair_min_max a b, deriveSalt_comm hm ckB "A" "B"⟩

/-! ## Claim C9 -/

/-- Claim C9 counterexample: `close` does not discard the ephemeral private
key — at a concrete session the closed state still holds it (it discards
only the session key and marks the machine sealed). -/
theorem c9_counterexample :
    (close s9).sk = some [5] ∧ ¬ (close s9).sk = none ∧ (close s9).aeadKey = none := by
  decide

/-- Claim C9 (amended): `close` discards the stored session key and marks
the session closed, leaves every other field — including the ephemeral
private key — unchanged, and is idempotent. -/
theorem c9_close_discards_key_only (st : Session) :
    close st = { st with aeadKey := none, sealed := true }
    ∧ close (close st) = close st
    ∧ (close st).sk = st.sk ∧ (close st).role = st.role
    ∧ (close st).mePub = st.mePub ∧ (close st).otherPub = st.otherPub
    ∧ (close st).pk = st.pk :=
  ⟨rfl, rfl, rfl, rfl, rfl, rfl, rfl⟩

/-! ## Claim C1 -/

/-- Claim C1: for every pairwise secret, identity pair, and pair of
ephemeral X25519 keypairs (32-byte public halves, with the commutative
shared secret X25519 provides), the session key one party derives from
(own private, peer public, secret, self=A, peer=B) is byte-identical to
the one the other derives from (own private, peer public, secret, self=B,
peer=A) — independent of which session is the Host. -/
theorem c1_key_agreement (c : Crypto) (a b ckS : String) (ka kb : List Nat)
    (hcomm : c.scalarmult ka (c.pubOf kb) = c.scalarmult kb (c.pubOf ka))
    (hla : (c.pubOf ka).length = 32) (hlb : (c.pubOf kb).length = 32)
    (hka : ∀ x ∈ c.pubOf ka, x < 256) (hkb : ∀ x ∈ c.pubOf kb, x < 256) :
    derive_session_key c
      { role := "host", mePub := a, otherPub := b, sk := some ka,
        pk := c.pubOf ka, aeadKey := none, sealed := false }
      (b64e (c.pubOf kb)) ckS
    = derive_session_key c
      { role := "viewer", mePub := b, otherPub := a, sk := some kb,
        pk := c.pubOf kb, aeadKey := none, sealed := false }
      (b64e (c.pubOf ka)) ckS := by
  unfold derive_session_key
  cases hck : b64d ckS with
  | none =>
    simp only [b64_roundtrip _ hka, b64_roundtrip _ hkb, hla, hlb, reduceIte, hck]
  | some ckB =>
    simp only [b64_roundtrip _ hka, b64_roundtrip _ hkb, hla, hlb, reduceIte, hck,
      hcomm, deriveSalt_comm c.hmac ckB a b]

theorem c1_witness :
    derive_session_key wCrypto
      { role := "host", mePub := "A", otherPub := "B", sk := some [3],
        pk := wPub [3], aeadKey := none, sealed := false }
      (b64e (wPub [4])) "AAAA"
    = derive_session_key wCrypto
      { role := "viewer", mePub := "B", otherPub := "A", sk := some [4],
        pk := wPub [4], aeadKey := none, sealed := false }
      (b64e (wPub [3])) "AAAA" :=
  c1_key_agreement wCrypto "A" "B" "AAAA" [3] [4]
    (by decide) (by decide) (by decide) (by decide) (by decide)

/-! ## Claim C7 -/

/-- Claim C7 counterexample: with the resolver unavailable,
`start_handshake_as_host` does not return an error value — the `get_connkey`
call sits outside any `try:`, so the exception propagates to the caller
(outcome `.raised`); no Hello is sent and the session is unchanged. -/
theorem c7_counterexample :
    start_handshake_as_host wCrypto wResolverDown sHost
      = (sHost, StartOutcome.raised StartErr.resolveRaised) := rfl

/-- Claim C7 (amended): if pairwise-secret resolution fails,
`start_handshake_as_host` propagates the error as an exception to the
caller (rather than returning an error value), sends no Hello frame, and
leaves the machine state unchanged — no session key, no field modified —
so the call is retry-safe. -/
theorem c7_resolver_failure_retry_safe (c : Crypto) (res : Resolver) (st : Session)
    (h : res st.mePub st.otherPub = Except.error ()) :
    start_handshake_as_host c res st = (st, StartOutcome.raised StartErr.resolveRaised) := by
  unfold start_handshake_as_host
  rw [h]

theorem c7_witness :
    start_handshake_as_host wCrypto wResolverDown sViewer
      = (sViewer, StartOutcome.raised StartErr.resolveRaised) :=
  c7_resolver_failure_retry_safe wCrypto wResolverDown sViewer rfl

set_option maxRecDepth 20000

/-! ## Claim C2 -/

/-- Claim C2 (code bug): `_handle_hello` has no Keyed/Closed guard, so a
further valid, correctly authenticated Hello does NOT leave the stored
session key unchanged — at a concrete keyed viewer session (and likewise
at the closed session obtained from it) the key is re-derived and
replaced. -/
theorem c2_keyed_hello_replaces_key :
    resKey (on_json wCrypto wResolver sViewerKeyed (some (JVal.jobj helloGood)))
        ≠ some sViewerKeyed.aeadKey
    ∧ resKey (on_json wCrypto wResolver sViewerKeyed (some (JVal.jobj helloGood))) ≠ none
    ∧ sViewerKeyed.aeadKey = some [7]
    ∧ resKey (on_json wCrypto wResolver (close sViewerKeyed) (some (JVal.jobj helloGood)))
        ≠ some (close sViewerKeyed).aeadKey := by
  decide

/-! ## Claim C3 -/

/-- Claim C3 counterexample: `on_json` is not total on attacker input —
the string `"5"` parses as the JSON number 5, and `msg.get("t")` on a
non-dict raises `AttributeError`, which propagates out of `on_json`. -/
theorem c3_counterexample :
    on_json wCrypto wResolver sViewer (some (JVal.jnum 5))
      = Except.error PyErr.attributeError := rfl

/-- Claim C3 (amended): `on_json` drops JSON parse failures without raising
and without touching the state, and on every parsed JSON object whose tag
is not "hello"/"hello-ack" it returns normally with the session state
unchanged (unknown tags, missing fields, and the entire msg branch
included).  JSON that is not an object raises `AttributeError`, and on the
hello/hello-ack paths a truthy non-string field or invalid base64 in
`auth` (or in the resolved conn key) raises after the resolver succeeds. -/
theorem c3_no_raise_outside_handshake (c : Crypto) (res : Resolver) (st : Session) (m : JObj)
    (h1 : tagOf m ≠ some "hello") (h2 : tagOf m ≠ some "hello-ack") :
    on_json c res st none = Except.ok (st, [])
    ∧ (∃ outs, on_json c res st (some (JVal.jobj m)) = Except.ok (st, outs)) := by
  refine ⟨rfl, ?_⟩
  show ∃ outs, on_obj c res st m = Except.ok (st, outs)
  unfold on_obj
  rw [if_neg h1, if_neg h2]
  by_cases hmsg : tagOf m = some "msg"
  · rw [if_pos hmsg]
    refine ⟨(handle_msg c st m).2, ?_⟩
    have hfst : (handle_msg c st m).1 = st := handle_msg_fst c st m
    exact congrArg Except.ok (by rw [Prod.ext_iff]; exact ⟨hfst, rfl⟩)
  · rw [if_neg hmsg]
    exact ⟨[], rfl⟩

theorem c3_witness :
    on_json wCrypto wResolver sViewer none = Except.ok (sViewer, [])
    ∧ (∃ outs, on_json wCrypto wResolver sViewer
        (some (JVal.jobj [("t", JVal.jstr "bogus")])) = Except.ok (sViewer, outs)) :=
  c3_no_raise_outside_handshake wCrypto wResolver sViewer
    [("t", JVal.jstr "bogus")] (by decide) (by decide)

/-! ## Claim C5 -/

/-- Claim C5: the authentication tag equals
HMAC-SHA256(secret, roleString ++ "|" ++ ephemeralPublicB64) for the
sender's claimed role, and an incoming Hello is accepted exactly when its
decoded `auth` equals this recomputation: on a mismatch the frame is
rejected with no state change, no reply, and no key derivation; on a match
the key is derived (and the viewer acks a host's hello). -/
theorem c5_auth_tag_exact (c : Crypto) (res : Resolver) (st : Session) (m : JObj)
    (roleS epubS authS ck : String) (ckB authB : List Nat)
    (hrole : jget m "role" = JVal.jstr roleS)
    (hrs : roleS = "host" ∨ roleS = "viewer")
    (hepv : jget m "epub" = JVal.jstr epubS) (hep : epubS ≠ "")
    (hauv : jget m "auth" = JVal.jstr authS) (hau : authS ≠ "")
    (hres : res (if roleS = "host" then st.otherPub else st.mePub)
      (if roleS = "host" then st.mePub else st.otherPub) = Except.ok ck)
    (hck : b64d ck = some ckB)
    (hab : b64d authS = some authB) :
    auth_tag c ck roleS epubS
        = some (b64e (c.hmac ckB (utf8Bytes (roleS ++ "|" ++ epubS))))
    ∧ (authB ≠ c.hmac ckB (utf8Bytes (roleS ++ "|" ++ epubS)) →
        handle_hello c res st m = Except.ok (st, []))
    ∧ (authB = c.hmac ckB (utf8Bytes (roleS ++ "|" ++ epubS)) →
        handle_hello c res st m = Except.ok
          ({ st with aeadKey := derive_session_key c st epubS ck },
           if st.role = "viewer" ∧ roleS = "host" then
             [Out.ackFrame "viewer" (b64e st.pk)
               (b64e (c.hmac ckB (utf8Bytes ("viewer" ++ "|" ++ b64e st.pk))))]
           else [])) := by
  have hred : handle_hello c res st m
      = (if authB = c.hmac ckB (utf8Bytes (roleS ++ "|" ++ epubS)) then
          (if st.role = "viewer" ∧ roleS = "host" then
            Except.ok ({ st with aeadKey := derive_session_key c st epubS ck },
              [Out.ackFrame "viewer" (b64e st.pk)
                (b64e (c.hmac ckB (utf8Bytes ("viewer" ++ "|" ++ b64e st.pk))))])
          else Except.ok ({ st with aeadKey := derive_session_key c st epubS ck }, []))
        else Except.ok (st, [])) := by
    simp only [handle_hello, hrole, hepv, hauv, jTruthy, asStr, bne_iff_ne, ne_eq,
      hep, hau, hrs, not_false_eq_true, and_true, true_and, and_self, reduceIte,
      hres, hck, hab]
  refine ⟨?_, ?_, ?_⟩
  · unfold auth_tag
    rw [hck]
    rfl
  · intro hne
    rw [hred, if_neg hne]
  · intro heq
    rw [hred, if_pos heq]
    split <;> rfl

theorem c5_witness :
    handle_hello wCrypto wResolver sViewer helloBadAuth = Except.ok (sViewer, []) :=
  (c5_auth_tag_exact wCrypto wResolver sViewer helloBadAuth
    "host" epubB "AAAA" "AAAA" [0, 0, 0] [0, 0, 0]
    rfl (Or.inl rfl) rfl (by decide) rfl (by decide)
    rfl (by decide) (by decide)).2.1 (by decide)

/-! ## Claim C6 -/

/-- Claim C6: resolving the pairwise secret first attempts a fetch; it
attempts to provision if and only if that fetch reports not-found (404),
and then re-fetches exactly once (two fetches happen exactly when the
first 404s and the provision succeeds, otherwise one); a 409 conflict from
provisioning is terminal — surfaced as an error, with no re-fetch and no
legacy-route fallback. -/
theorem c6_resolve_retry_policy (f1 f2 : FetchR) (g : GenR) (l : Except Unit String) :
    (ensure_connkey f1 f2 g l).2.head? = some CKCall.fetch
    ∧ ((ensure_connkey f1 f2 g l).2.contains CKCall.generate = true ↔ f1 = FetchR.status404)
    ∧ (ensure_connkey f1 f2 g l).2.count CKCall.fetch
        = (if f1 = FetchR.status404 ∧ g = GenR.ok then 2 else 1)
    ∧ ensure_connkey FetchR.status404 f2 GenR.conflict409 l
        = (Except.error EnsureErr.conflict409, [CKCall.fetch, CKCall.generate]) := by
  refine ⟨?_, ?_, ?_, rfl⟩ <;>
    cases f1 <;> cases g <;> (try cases f2) <;>
      simp [ensure_connkey, legacyResult, List.count_cons, List.contains]

/-! ## Claim C8 -/

/-- Claim C8 counterexample: an already-keyed host MessagingSession does
NOT ignore a further valid HelloAck — `_handle_hello_ack` has no Keyed
guard (only chat_only.py's `WSChat.on_ack` checks `self.key`), so the
stored session key is re-derived and replaced. -/
theorem c8_counterexample :
    resKey (on_json wCrypto wResolver sHostKeyed (some (JVal.jobj ackGood)))
        ≠ some sHostKeyed.aeadKey
    ∧ resKey (on_json wCrypto wResolver sHostKeyed (some (JVal.jobj ackGood))) ≠ none
    ∧ sHostKeyed.aeadKey = some [7] := by
  decide

/-- Claim C8 (amended): `_handle_hello_ack` modifies the session (derives
a key) only if the machine's role is host, the ack's claimed role is the
literal "viewer", the epub and auth fields are present and truthy, and the
tag verifies against the resolved conn key; but an already-keyed
MessagingSession does not ignore a further valid HelloAck — it re-derives
and may replace the stored key (the Keyed guard exists only in
chat_only.py's `WSChat.on_ack`). -/
theorem c8_ack_derives_only_if (c : Crypto) (res : Resolver) (st : Session) (m : JObj)
    (st2 : Session) (outs : List Out)
    (hok : handle_hello_ack c res st m = Except.ok (st2, outs))
    (hch : st2 ≠ st) :
    st.role = "host" ∧ jget m "role" = JVal.jstr "viewer"
    ∧ jTruthy (jget m "epub") = true ∧ jTruthy (jget m "auth") = true
    ∧ ackTagVerifies c res st m = true := by
  unfold handle_hello_ack at hok
  split at hok
  case h_2 =>
    exfalso
    apply hch
    simp only [Except.ok.injEq, Prod.mk.injEq] at hok
    exact hok.1.symm
  case h_1 x heqrole =>
    split at hok
    case isFalse =>
      exfalso
      apply hch
      simp only [Except.ok.injEq, Prod.mk.injEq] at hok
      exact hok.1.symm
    case isTrue hcond =>
      split at hok
      case h_1 heqres =>
        exfalso
        apply hch
        simp only [Except.ok.injEq, Prod.mk.injEq] at hok
        exact hok.1.symm
      case h_2 ck heqres =>
        split at hok
        case h_1 => exact absurd hok (by simp)
        case h_2 ckB heqck =>
          split at hok
          case h_1 => exact absurd hok (by simp)
          case h_2 epubS heqep =>
            split at hok
            case h_1 => exact absurd hok (by simp)
            case h_2 authS heqau =>
              split at hok
              case h_1 => exact absurd hok (by simp)
              case h_2 authB heqab =>
                split at hok
                case isFalse =>
                  exfalso
                  apply hch
                  simp only [Except.ok.injEq, Prod.mk.injEq] at hok
                  exact hok.1.symm
                case isTrue htag =>
                  refine ⟨hcond.1, heqrole, hcond.2.1, hcond.2.2, ?_⟩
                  simp only [ackTagVerifies, heqres, heqep, heqau, heqck, heqab, htag,
                    decide_eq_true_eq]

theorem c8_witness :
    sHost.role = "host" ∧ jget ackGood "role" = JVal.jstr "viewer"
    ∧ jTruthy (jget ackGood "epub") = true ∧ jTruthy (jget ackGood "auth") = true
    ∧ ackTagVerifies wCrypto wResolver sHost ackGood = true :=
  c8_ack_derives_only_if wCrypto wResolver sHost ackGood
    { sHost with aeadKey := derive_session_key wCrypto sHost epubB "AAAA" } []
    (by decide) (by decide)

end LiliumShare
